import Mathlib

/-!
Verification of the omnichannel conversation ingestion engine of the
dashboard_chatbot backend (`backend/app/routers/conversations.py`,
`backend/app/services/whatsapp_service.py`, `backend/app/models/models.py`).

The Python code is shallowly embedded as pure Lean functions:
- JSON payloads (the result of `json.loads`) are the inductive type `J`;
  a Python exception raised while processing a payload is an `Except.error`.
- The relational store is the record `DB`; SQLAlchemy commits are modelled
  by applying the pending inserts/updates to the record, and enforcing the
  unique constraint declared on `messages.whatsapp_id` in `models.py`.
  Timestamps (`func.now()`) are a discrete clock `DB.now`, ticked at each
  transaction boundary, so distinct transactions get distinct timestamps.
- The external collaborators (reply generator, WhatsApp delivery gateway)
  are oracle parameters: `generate_chat_response` is an
  `Except Unit String` (it can raise), `ZApiProvider.send_message` is an
  `Except Unit (Option String)` (it returns `None` on a handled failure
  and can only raise before entering its own try block).
- The websocket broadcast never touches the database; its failure
  behaviour is modelled separately by `hubBroadcast` below.
-/

namespace DashboardChatbot

/-! ## Python JSON values -/

mutual

/-- A decoded JSON value, as produced by Python `json.loads`. -/
inductive J where
  | null
  | bool (b : Bool)
  | num (n : Int)
  | str (s : String)
  | arr (xs : JList)
  | obj (fs : JObj)
deriving DecidableEq, Repr

/-- A JSON array. -/
inductive JList where
  | nil
  | cons (hd : J) (tl : JList)
deriving DecidableEq, Repr

/-- A JSON object: ordered key/value fields (keys unique under `json.loads`). -/
inductive JObj where
  | nil
  | cons (k : String) (v : J) (tl : JObj)
deriving DecidableEq, Repr

end

/-- Build a `J.obj` from a list of fields. -/
def jO (fs : List (String × J)) : J :=
  .obj (fs.foldr (fun f acc => JObj.cons f.1 f.2 acc) .nil)

/-- Look a key up in a JSON object (Python `dict.__getitem__` / `get`). -/
def jlookup : JObj → String → Option J
  | .nil, _ => none
  | .cons k v t, key => if k = key then some v else jlookup t key

/-- Python `data.get(k)`: `None` when the key is absent. -/
def oget (fs : JObj) (k : String) : J := (jlookup fs k).getD .null

/-- Python `data.get(k, d)`. -/
def ogetD (fs : JObj) (k : String) (d : J) : J := (jlookup fs k).getD d

/-- Python `k in data` for a dict. -/
def hasKey (fs : JObj) (k : String) : Bool := (jlookup fs k).isSome

/-- Membership of a value in a JSON array (Python `x in list`). -/
def jmem (x : J) : JList → Bool
  | .nil => false
  | .cons h t => h == x || jmem x t

/-- Python truthiness of a decoded JSON value. -/
def truthy : J → Bool
  | .null => false
  | .bool b => b
  | .num n => n != 0
  | .str s => s != ""
  | .arr xs => match xs with | .nil => false | _ => true
  | .obj fs => match fs with | .nil => false | _ => true

/-- Python `a or b` on values: the first operand if truthy, else the second. -/
def pyOr (a b : J) : J := if truthy a then a else b

/-- Does `pre` start the character list `l`? -/
def startsL : List Char → List Char → Bool
  | [], _ => true
  | _ :: _, [] => false
  | a :: as, b :: bs => a == b && startsL as bs

/-- Does the character list contain `pat` as a contiguous run? -/
def containsL (pat : List Char) : List Char → Bool
  | [] => pat.isEmpty
  | h :: t => startsL pat (h :: t) || containsL pat t

/-- Substring test: does `hay` contain `pat` (Python `pat in hay`)? -/
def containsSub (hay pat : String) : Bool := containsL pat.data hay.data

/-- Characters before the first occurrence of `c` (all of them if absent). -/
def beforeChar (c : Char) : List Char → List Char
  | [] => []
  | h :: t => if h == c then [] else h :: beforeChar c t

/-- Python `s.split(sep)[0]` for a one-character separator. -/
def splitHead (s : String) (c : Char) : String := ⟨beforeChar c s.data⟩

mutual

/-- Python `str()` of a decoded JSON value (container rendering is a
best-effort approximation of `repr`; no theorem depends on it). -/
def pyStr : J → String
  | .null => "None"
  | .bool true => "True"
  | .bool false => "False"
  | .num n => toString n
  | .str s => s
  | .arr xs => "[" ++ pyStrList xs ++ "]"
  | .obj fs => "\x7b" ++ pyStrObj fs ++ "\x7d"

/-- Elementwise rendering of an array for `pyStr`. -/
def pyStrList : JList → String
  | .nil => ""
  | .cons h .nil => pyStr h
  | .cons h t => pyStr h ++ ", " ++ pyStrList t

/-- Fieldwise rendering of an object for `pyStr`. -/
def pyStrObj : JObj → String
  | .nil => ""
  | .cons k v .nil => k ++ ": " ++ pyStr v
  | .cons k v t => k ++ ": " ++ pyStr v ++ ", " ++ pyStrObj t

end

mutual

/-- Python `json.dumps` of a decoded value (string escaping elided;
no theorem depends on the rendered text). -/
def jsonDumps : J → String
  | .null => "null"
  | .bool true => "true"
  | .bool false => "false"
  | .num n => toString n
  | .str s => "\"" ++ s ++ "\""
  | .arr xs => "[" ++ jsonDumpsList xs ++ "]"
  | .obj fs => "\x7b" ++ jsonDumpsObj fs ++ "\x7d"

/-- Elementwise `json.dumps` of an array. -/
def jsonDumpsList : JList → String
  | .nil => ""
  | .cons h .nil => jsonDumps h
  | .cons h t => jsonDumps h ++ ", " ++ jsonDumpsList t

/-- Fieldwise `json.dumps` of an object. -/
def jsonDumpsObj : JObj → String
  | .nil => ""
  | .cons k v .nil => "\"" ++ k ++ "\": " ++ jsonDumps v
  | .cons k v t => "\"" ++ k ++ "\": " ++ jsonDumps v ++ ", " ++ jsonDumpsObj t

end

/-! ## Provider adapters (`whatsapp_service.py`) -/

/-- The normalized dict returned by `ZApiProvider.process_webhook` when the
event is not ignored.  `fromMe` is stored as the truthiness of the Python
value `data.get("fromMe", False) or (event_type == "SendMessage")`; the
router only ever uses that value in boolean position. -/
structure ZEvent where
  remoteId : String
  phone : J
  senderName : J
  content : J
  fromMe : Bool
  whatsappId : J
  isMedia : Bool
  mediaUrl : J
deriving DecidableEq, Repr

/-- The status/connection event types `ZApiProvider.process_webhook` drops. -/
def zapiStatusEvents : List J :=
  [.str "Disconnected", .str "Connected", .str "MessageStatus"]

/-- The event types `ZApiProvider.process_webhook` accepts as messages. -/
def zapiMessageEvents : List J :=
  [.str "ReceivedMessage", .str "SendMessage", .str "ReceivedCallback",
   .str "on-message-received", .str "message-received"]

/-- Message-body extraction of `ZApiProvider.process_webhook` (the
`text` / `message` / `caption` precedence chain, including the final
`str(...)` coercion). -/
def zapiContent (fs : JObj) : J :=
  let t := oget fs "text"
  let msgF := oget fs "message"
  let c0 : J :=
    match t with
    | .obj tf => ogetD tf "message" (.str "")
    | _ =>
      match msgF with
      | .obj mf => pyOr (ogetD mf "text" (.str "")) (ogetD mf "message" (.str ""))
      | _ => pyOr t (pyOr msgF (.str ""))
  let c1 : String :=
    match c0 with
    | .obj _ => jsonDumps c0
    | _ => pyStr c0
  if c1 = "" then pyOr (oget fs "caption") (.str "") else .str c1

/-- Media extraction of `ZApiProvider.process_webhook`.  Python runs
`data["image"].get("url")` whenever the key `image` is present, which
raises `AttributeError` when the value is not a dict (same for
`document`). -/
def zapiMedia (fs : JObj) : Except String (Bool × J) :=
  match jlookup fs "image" with
  | some (.obj g) => .ok (true, oget g "url")
  | some _ => .error "AttributeError"
  | none =>
    match jlookup fs "document" with
    | some (.obj g) => .ok (true, oget g "url")
    | some _ => .error "AttributeError"
    | none => .ok (false, .null)

/-- The raw event type of a Z-API payload:
`data.get("type") or data.get("event") or data.get("action")`. -/
def zapiRawType (fs : JObj) : J :=
  pyOr (oget fs "type") (pyOr (oget fs "event") (oget fs "action"))

/-- The possibly-inferred event type (`ReceivedMessage` when the typeless
payload has a `phone` or `message` key); `none` when there is nothing to
infer from. -/
def zapiInferType (fs : JObj) : Option J :=
  if truthy (zapiRawType fs) then some (zapiRawType fs)
  else if hasKey fs "phone" || hasKey fs "message" then some (.str "ReceivedMessage")
  else none

/-- The group filter of `ZApiProvider.process_webhook`: an explicit
truthy `isGroup` flag, or the `@g.us` group-suffix marker inside the
stringified `phone` field. -/
def zapiIsGroup (fs : JObj) : Bool :=
  truthy (ogetD fs "isGroup" (.bool false))
    || (truthy (ogetD fs "phone" (.str ""))
        && containsSub (pyStr (ogetD fs "phone" (.str ""))) "@g.us")

/-- `ZApiProvider.process_webhook`: normalizes a raw Z-API webhook payload.
`.ok none` models the empty-dict "ignore" result; `.error` models an
uncaught Python exception. -/
def zapiProcessWebhook (data : J) : Except String (Option ZEvent) :=
  match data with
  | .obj fs =>
    if zapiRawType fs ∈ zapiStatusEvents then .ok none
    else
      match zapiInferType fs with
      | none => .ok none
      | some et =>
        if et ∉ zapiMessageEvents then .ok none
        else if zapiIsGroup fs then .ok none
        else
          match zapiMedia fs with
          | .error e => .error e
          | .ok media =>
            let phone := oget fs "phone"
            .ok (some
              { remoteId := pyStr phone ++ "@c.us"
                phone := phone
                senderName := pyOr (oget fs "senderName")
                  (pyOr (oget fs "pushName") (.str "Cliente"))
                content := zapiContent fs
                fromMe := truthy (ogetD fs "fromMe" (.bool false))
                  || et == .str "SendMessage"
                whatsappId := oget fs "messageId"
                isMedia := media.1
                mediaUrl := media.2 })
  | _ => .error "AttributeError"

/-- Result of `EvolutionProvider.process_webhook`: the empty dict,
the `{"from_me": True}` dict, or a full normalized dict. -/
inductive EvoResult where
  | ignore
  | fromMe
  | event (remoteId senderName content : J)
deriving DecidableEq, Repr

/-- Body extraction of `EvolutionProvider.process_webhook`.  Python first
evaluates `"conversation" in message`, which is key membership for a dict,
a substring test for a string, element membership for a list, and a
`TypeError` otherwise; indexing a non-dict with a string key raises. -/
def evoContent : J → Except String J
  | .obj mf =>
    match jlookup mf "conversation" with
    | some c => .ok c
    | none =>
      match jlookup mf "extendedTextMessage" with
      | some (.obj ef) => .ok (ogetD ef "text" (.str ""))
      | some _ => .error "AttributeError"
      | none => .ok (.str "")
  | .str s =>
    if containsSub s "conversation" then .error "TypeError"
    else if containsSub s "extendedTextMessage" then .error "TypeError"
    else .ok (.str "")
  | .arr xs =>
    if jmem (.str "conversation") xs then .error "TypeError"
    else if jmem (.str "extendedTextMessage") xs then .error "TypeError"
    else .ok (.str "")
  | _ => .error "TypeError"

/-- `EvolutionProvider.process_webhook`.  Note that `get_whatsapp_service`
always returns `ZApiProvider`, so this adapter is never wired into any
endpoint; it is modeled for the adapter-level claims about its code. -/
def evoProcessWebhook (data : J) : Except String EvoResult :=
  match data with
  | .obj fs =>
    let event := oget fs "event"
    let payload := ogetD fs "data" (jO [])
    if event ≠ .str "messages.upsert" then .ok .ignore
    else
      match payload with
      | .obj pf =>
        let message := ogetD pf "message" (jO [])
        match ogetD pf "key" (jO []) with
        | .obj kf =>
          if truthy (oget kf "fromMe") then .ok .fromMe
          else
            match evoContent message with
            | .error e => .error e
            | .ok content =>
              .ok (.event (oget kf "remoteJid")
                (pyOr (oget pf "pushName") (.str "Cliente")) content)
        | _ => .error "AttributeError"
      | _ => .error "AttributeError"
  | _ => .error "AttributeError"

/-! ## Data model (`models.py`) and store state -/

/-- `models.SenderType`. -/
inductive SenderType where
  | customer
  | bot
  | agent
deriving DecidableEq, Repr

/-- A `customers` row.  `name`/`phone` keep the Python value assigned to
the ORM attribute (the engine stores it as-is). -/
structure Customer where
  id : Nat
  name : J
  phone : J
  createdAt : Nat
deriving DecidableEq, Repr

/-- A `conversations` row. -/
structure Conversation where
  id : Nat
  customerId : Nat
  status : String
  createdAt : Nat
  updatedAt : Nat
  orderId : Option Nat
deriving DecidableEq, Repr

/-- A `messages` row.  `conversationId` is the raw value assigned by the
router (a conversation id for the webhook paths, an arbitrary payload
value on the websocket path).  `viaTrigger` is a ghost flag marking the
rows persisted by the first-contact greeting blocks; it does not exist in
the schema and no pipeline reads it. -/
structure Message where
  id : Nat
  conversationId : J
  content : J
  mediaUrl : J
  mediaType : Option String
  senderType : SenderType
  whatsappId : J
  timestamp : Nat
  viaTrigger : Bool
deriving DecidableEq, Repr

/-- The relational store plus the discrete transaction clock. -/
structure DB where
  customers : List Customer
  conversations : List Conversation
  messages : List Message
  nextCustomerId : Nat
  nextConversationId : Nat
  nextMessageId : Nat
  now : Nat
deriving DecidableEq, Repr

/-- The store of a freshly created database. -/
def emptyDB : DB := ⟨[], [], [], 1, 1, 1, 0⟩

/-- Append a message row (primary key from the id sequence). -/
def insertMessage (db : DB) (m : Message) : DB :=
  { db with messages := db.messages ++ [m], nextMessageId := db.nextMessageId + 1 }

/-- `conversation.updated_at = func.now()` for the row with primary key `cid`. -/
def touchConv (db : DB) (cid : Nat) (t : Nat) : DB :=
  { db with conversations :=
      db.conversations.map (fun c => if c.id = cid then { c with updatedAt := t } else c) }

/-- Advance the clock past a transaction boundary. -/
def tick (db : DB) : DB := { db with now := db.now + 1 }

/-- Would committing `m` violate the unique constraint on
`messages.whatsapp_id` (`models.py` declares `unique=True`; SQL `NULL`
never collides)? -/
def uniqueViolation (db : DB) (m : Message) : Bool :=
  !(m.whatsappId == J.null) && db.messages.any (fun x => x.whatsappId == m.whatsappId)

/-- The dedup guard of `zapi_webhook`: `if whatsapp_id:` followed by a
lookup of a Message with that external id. -/
def dedupHit (db : DB) (wid : J) : Bool :=
  truthy wid && db.messages.any (fun m => m.whatsappId == wid)

/-- Step 1 of `zapi_webhook`: find-or-create the customer by phone, and
update a placeholder name on a non-operator-authored event. -/
def upsertCustomer (db : DB) (senderName phone : J) (fromMe : Bool) : DB × Customer :=
  match db.customers.find? (fun c => c.phone == phone) with
  | some c =>
    if (c.name == J.str "Cliente" || !truthy c.name) && !fromMe then
      let c1 := { c with name := senderName }
      ({ db with customers := db.customers.map (fun x => if x.id = c.id then c1 else x) }, c1)
    else (db, c)
  | none =>
    let c : Customer := ⟨db.nextCustomerId, senderName, phone, db.now⟩
    ({ db with
        customers := db.customers ++ [c]
        nextCustomerId := db.nextCustomerId + 1 }, c)

/-- Step 2 of `zapi_webhook` / `evolution_webhook`: find the customer's
open conversation (no ordering clause: first row) or open a new one. -/
def openConvFor (db : DB) (custId : Nat) : DB × Conversation :=
  match db.conversations.find? (fun c => c.customerId == custId && c.status == "open") with
  | some c => (db, c)
  | none =>
    let c : Conversation := ⟨db.nextConversationId, custId, "open", db.now, db.now, none⟩
    ({ db with
        conversations := db.conversations ++ [c]
        nextConversationId := db.nextConversationId + 1 }, c)

/-- A webhook acknowledgment body, or an uncaught exception (HTTP 500). -/
inductive Resp where
  | status (s : String)
  | serverError (s : String)
deriving DecidableEq, Repr

/-- The greeting block of `zapi_webhook` (step 6): fires when no bot
message exists in the conversation; the whole block is wrapped in
`try/except`, and `generate_chat_response` (`gen`) may raise, while
`service.send_message` (`send`) returns `None` on a handled failure and
may itself raise (`.error`) before its own try block.  The bot row is
committed in a second transaction; a unique-constraint violation there is
swallowed by the `except`. -/
def zapiGreet (db : DB) (convId : Nat) (gen : Except Unit String)
    (send : Except Unit (Option String)) : DB :=
  if db.messages.any (fun m =>
      m.conversationId == J.num convId && m.senderType == SenderType.bot) then db
  else
    match gen with
    | .error _ => db
    | .ok s =>
      if s = "" then db
      else
        match send with
        | .error _ => db
        | .ok wid =>
          let bm : Message :=
            ⟨db.nextMessageId, J.num convId, .str s, .null, none, .bot,
             (match wid with | some i => .str i | none => .null), db.now, true⟩
          if uniqueViolation db bm then db else tick (insertMessage db bm)

/-- Phone resolution of `zapi_webhook`:
`normalized.get("phone") or (remote_id.split("@")[0] if remote_id else None)`. -/
def zapiPhone (ev : ZEvent) : J :=
  if truthy ev.phone then ev.phone
  else if ev.remoteId ≠ "" then .str (splitHead ev.remoteId '@')
  else .null

/-- Steps 1-3 of `zapi_webhook`: upsert the customer, find or open the
conversation, and build the inbound message row (not yet committed). -/
def zapiResolve (db : DB) (ev : ZEvent) (phone : J) : DB × Conversation × Message :=
  let u := upsertCustomer db ev.senderName phone ev.fromMe
  let oc := openConvFor u.1 u.2.id
  (oc.1, oc.2,
   ⟨oc.1.nextMessageId, J.num oc.2.id, ev.content, ev.mediaUrl,
    (if ev.isMedia then some "image" else none),
    (if ev.fromMe then .agent else .customer), ev.whatsappId, oc.1.now, false⟩)

/-- Steps 3-5 of `zapi_webhook`: insert the inbound message, bump the
conversation timestamp, commit (the clock ticks past the transaction). -/
def zapiCommit (db : DB) (ev : ZEvent) (ph : J) : DB :=
  tick (touchConv
    (insertMessage (zapiResolve db ev ph).1 (zapiResolve db ev ph).2.2)
    (zapiResolve db ev ph).2.1.id (zapiResolve db ev ph).1.now)

/-- Steps 1-6 of `zapi_webhook` after the dedup guard passed. -/
def zapiIngest (db : DB) (ev : ZEvent) (gen : Except Unit String)
    (send : Except Unit (Option String)) : Resp × DB :=
  if !truthy (zapiPhone ev) then (.status "no_phone", db)
  else
    if uniqueViolation (zapiResolve db ev (zapiPhone ev)).1
        (zapiResolve db ev (zapiPhone ev)).2.2 then
      (.serverError "IntegrityError", db)
    else
      if ev.fromMe then (.status "success", zapiCommit db ev (zapiPhone ev))
      else
        (.status "success",
         zapiGreet (zapiCommit db ev (zapiPhone ev))
           (zapiResolve db ev (zapiPhone ev)).2.1.id gen send)

/-- `zapi_webhook` on a parsed JSON body (the GET branch and the
invalid-JSON branch are outside the scope of the claims). -/
def zapiWebhook (db : DB) (data : J) (gen : Except Unit String)
    (send : Except Unit (Option String)) : Resp × DB :=
  match zapiProcessWebhook data with
  | .error e => (.serverError e, db)
  | .ok none => (.status "ignored", db)
  | .ok (some ev) =>
    if dedupHit db ev.whatsappId then (.status "already_processed", db)
    else zapiIngest db ev gen send

/-- The greeting block of `evolution_webhook` (step 6): counts bot rows;
`generate_chat_response` is not wrapped in `try/except` here, so a raise
aborts the request (HTTP 500) after the inbound message was committed.
The outbound send result is discarded and the bot row has no external id. -/
def evoGreet (db : DB) (convId : Nat) (gen : Except Unit String) : Resp × DB :=
  if db.messages.countP (fun m =>
      m.conversationId == J.num convId && m.senderType == SenderType.bot) == 0 then
    match gen with
    | .error _ => (.serverError "Exception", db)
    | .ok s =>
      (.status "success",
       tick (insertMessage db
         ⟨db.nextMessageId, J.num convId, .str s, .null, none, .bot, .null, db.now, true⟩))
  else (.status "success", db)

/-- Steps 1-3 of `evolution_webhook`: upsert the customer (the name-update
branch here has no `from_me` condition, but only non-operator events reach
it), find or open the conversation, and build the inbound message row. -/
def evoResolve (db : DB) (senderName content phone : J) : DB × Conversation × Message :=
  let u := upsertCustomer db senderName phone false
  let oc := openConvFor u.1 u.2.id
  (oc.1, oc.2,
   ⟨oc.1.nextMessageId, J.num oc.2.id, content, .null, none, .customer,
    .null, oc.1.now, false⟩)

/-- Steps 3-5 of `evolution_webhook`: insert the inbound message, bump the
conversation timestamp, commit. -/
def evoCommit (db : DB) (n ct ph : J) : DB :=
  tick (touchConv
    (insertMessage (evoResolve db n ct ph).1 (evoResolve db n ct ph).2.2)
    (evoResolve db n ct ph).2.1.id (evoResolve db n ct ph).1.now)

/-- `evolution_webhook`.  The endpoint calls `get_whatsapp_service()`,
which always returns `ZApiProvider` (`EvolutionProvider` is never
instantiated), so the payload is normalized by the Z-API adapter — in
particular, every Evolution-style `messages.upsert` payload normalizes to
the empty dict and is ignored.  For a normalized event the remote id has
the Z-API shape `f"{phone}@c.us"` (a non-empty string), so
`remote_id.split("@")[0]` never raises here.  A non-object request body
is rejected by the framework before the handler runs; the `.error` case
covers the adapter raising inside the handler. -/
def evolutionWebhook (db : DB) (data : J) (gen : Except Unit String) : Resp × DB :=
  match zapiProcessWebhook data with
  | .error e => (.serverError e, db)
  | .ok none => (.status "ignored", db)
  | .ok (some ev) =>
    if ev.fromMe then (.status "ignored", db)
    else
      evoGreet
        (evoCommit db ev.senderName ev.content (.str (splitHead ev.remoteId '@')))
        (evoResolve db ev.senderName ev.content (.str (splitHead ev.remoteId '@'))).2.1.id
        gen

/-- The open-conversation lookup of `broadcast_encarte`
(`order_by(updated_at.desc())` then first row: a most recently updated
open conversation). -/
def openConvDesc (db : DB) (custId : Nat) : Option Conversation :=
  match db.conversations.filter (fun c => c.customerId == custId && c.status == "open") with
  | [] => none
  | c :: rest =>
    some (rest.foldl (fun b c1 => if c1.updatedAt > b.updatedAt then c1 else b) c)

/-- One loop iteration of `broadcast_encarte` for one customer: reuse the
open conversation or open one, then queue a bot message (the outbound
send has no store effect). -/
def encarteStep (content : J) (mediaUrl : J) (mediaType : Option String)
    (db : DB) (cust : Customer) : DB :=
  let oc :=
    match openConvDesc db cust.id with
    | some c => (db, c)
    | none =>
      let c : Conversation := ⟨db.nextConversationId, cust.id, "open", db.now, db.now, none⟩
      ({ db with
          conversations := db.conversations ++ [c]
          nextConversationId := db.nextConversationId + 1 }, c)
  insertMessage oc.1
    ⟨oc.1.nextMessageId, J.num oc.2.id, content, mediaUrl, mediaType, .bot, .null,
     oc.1.now, false⟩

/-- `broadcast_encarte`: fan a bot message out to the selected customers
(empty `ids` selects every customer), committing once at the end. -/
def broadcastEncarte (db : DB) (ids : List Nat) (content : String)
    (mediaUrl : J) (mediaType : Option String) : DB :=
  let custs :=
    if ids.isEmpty then db.customers
    else db.customers.filter (fun c => c.id ∈ ids)
  tick (custs.foldl (encarteStep (.str content) mediaUrl mediaType) db)

/-- `POST /conversations/` (`create_conversation`): inserts the row built
from the request body unconditionally. -/
def createConversation (db : DB) (customerId : Nat) (status : String)
    (orderId : Option Nat) : DB :=
  tick { db with
    conversations := db.conversations ++
      [⟨db.nextConversationId, customerId, status, db.now, db.now, orderId⟩]
    nextConversationId := db.nextConversationId + 1 }

/-- Set the `whatsapp_id` of an existing message row. -/
def setMsgWid (db : DB) (mid : Nat) (wid : J) : DB :=
  { db with messages :=
      db.messages.map (fun m => if m.id = mid then { m with whatsappId := wid } else m) }

/-- `send_message_with_attachment`: persist an agent message, bump the
conversation timestamp, then send via the gateway and store the returned
provider id in a second transaction. -/
def sendMessageWithAttachment (db : DB) (convId : Nat) (content : J)
    (mediaUrl : J) (mediaType : Option String)
    (send : Except Unit (Option String)) : Resp × DB :=
  match db.conversations.find? (fun c => c.id == convId) with
  | none => (.serverError "NotFound", db)
  | some _ =>
    let m : Message :=
      ⟨db.nextMessageId, J.num convId, content, mediaUrl, mediaType, .agent,
       .null, db.now, false⟩
    let db1 := tick (touchConv (insertMessage db m) convId db.now)
    match send with
    | .error _ => (.serverError "Exception", db1)
    | .ok none => (.status "sent", db1)
    | .ok (some i) =>
      let m1 := { m with whatsappId := .str i }
      if uniqueViolation db1 m1 then (.serverError "IntegrityError", db1)
      else (.status "sent", tick (setMsgWid db1 m.id (.str i)))

/-- The raw-SQL conversation-timestamp update of the websocket endpoint
(`UPDATE conversations SET updated_at = now() WHERE id = :payload value`). -/
def touchConvJ (db : DB) (convId : J) (t : Nat) : DB :=
  { db with conversations :=
      db.conversations.map (fun c =>
        if J.num c.id == convId then { c with updatedAt := t } else c) }

/-- `models.SenderType(value)` with the `except ValueError` fallback of
the websocket endpoint: unknown values collapse to `CUSTOMER`. -/
def wsSenderType (v : J) : SenderType :=
  match v with
  | .str "customer" => .customer
  | .str "bot" => .bot
  | .str "agent" => .agent
  | _ => .customer

/-- One received frame of the observer websocket endpoint: persist the
message (defaulting `sender_type`), bump the conversation row matching
the payload's `conversation_id`, then run the greeting block for customer
messages.  A non-dict frame raises inside the handler's `try` and
persists nothing. -/
def wsReceive (db : DB) (data : J) (gen : Except Unit String) : DB :=
  match data with
  | .obj fs =>
    let st := wsSenderType (ogetD fs "sender_type" (.str "customer"))
    let convId := oget fs "conversation_id"
    let m : Message :=
      ⟨db.nextMessageId, convId, oget fs "content", .null, none, st, .null,
       db.now, false⟩
    let db1 := tick (touchConvJ (insertMessage db m) convId db.now)
    if st == SenderType.customer then
      if db1.messages.countP (fun x =>
          x.conversationId == convId && x.senderType == SenderType.bot) == 0 then
        match gen with
        | .error _ => db1
        | .ok s =>
          let bm : Message :=
            ⟨db1.nextMessageId, convId, .str s, .null, none, .bot, .null, db1.now, true⟩
          tick (touchConvJ (insertMessage db1 bm) convId db1.now)
      else db1
    else db1
  | _ => db

/-! ## Connection manager (`ConnectionManager`) -/

/-- A registered observer connection; `ok` tells whether `send_text`
succeeds on it. -/
structure Conn where
  id : Nat
  ok : Bool
deriving DecidableEq, Repr

/-- The in-memory connection registry (`manager.active_connections`). -/
structure Hub where
  active : List Conn
deriving DecidableEq, Repr

/-- Sequential delivery of `ConnectionManager.broadcast`: send to each
connection in registration order; the first failing send raises out of
the loop.  Returns the ids that received the event and the id of the
failing connection, if any. -/
def deliverAll : List Conn → List Nat × Option Nat
  | [] => ([], none)
  | c :: rest =>
    if c.ok then
      let r := deliverAll rest
      (c.id :: r.1, r.2)
    else ([], some c.id)

/-- `ConnectionManager.broadcast`: the registry itself is not modified
(no removal happens anywhere in `broadcast`). -/
def hubBroadcast (h : Hub) : (List Nat × Option Nat) × Hub :=
  (deliverAll h.active, h)

/-! ## Operations and traces -/

/-- The message-creating operations of the ingestion engine, with their
collaborator oracles. -/
inductive Op where
  | zapi (payload : J) (gen : Except Unit String) (send : Except Unit (Option String))
  | evo (payload : J) (gen : Except Unit String)
  | ws (payload : J) (gen : Except Unit String)
  | encarte (ids : List Nat) (content : String) (mediaUrl : J) (mediaType : Option String)
  | agent (convId : Nat) (content : J) (mediaUrl : J) (mediaType : Option String)
      (send : Except Unit (Option String))
  | createConv (customerId : Nat) (status : String) (orderId : Option Nat)

/-- Execute one operation against the store. -/
def step (db : DB) : Op → DB
  | .zapi payload gen send => (zapiWebhook db payload gen send).2
  | .evo payload gen => (evolutionWebhook db payload gen).2
  | .ws payload gen => wsReceive db payload gen
  | .encarte ids content mediaUrl mediaType => broadcastEncarte db ids content mediaUrl mediaType
  | .agent convId content mediaUrl mediaType send =>
      (sendMessageWithAttachment db convId content mediaUrl mediaType send).2
  | .createConv customerId status orderId => createConversation db customerId status orderId

/-- Execute a trace of operations. -/
def runOps (db : DB) (ops : List Op) : DB := ops.foldl step db

/-! ## Derived quantities and invariants -/

/-- Number of bot messages stored under conversation key `cid`. -/
def botCount (db : DB) (cid : J) : Nat :=
  db.messages.countP (fun m => m.conversationId == cid && m.senderType == SenderType.bot)

/-- Number of bot messages under key `cid` persisted by a first-contact
greeting block. -/
def trigCount (db : DB) (cid : J) : Nat :=
  db.messages.countP (fun m =>
    m.conversationId == cid && m.senderType == SenderType.bot && m.viaTrigger)

/-- Number of open conversations of a customer. -/
def openCount (db : DB) (custId : Nat) : Nat :=
  db.conversations.countP (fun c => c.customerId == custId && c.status == "open")

/-- The greeting-gate invariant: per conversation key, at most one
trigger-produced bot message, and none while no bot message exists. -/
def TrigInv (db : DB) : Prop :=
  ∀ cid : J, trigCount db cid ≤ 1 ∧ trigCount db cid ≤ botCount db cid

/-- The spec invariant: at most one open conversation per customer. -/
def OneOpen (db : DB) : Prop := ∀ custId : Nat, openCount db custId ≤ 1

/-- The websocket payloads whose `sender_type` is absent or names no
member of `SenderType`. -/
def wsBadSender (fs : JObj) : Prop :=
  match jlookup fs "sender_type" with
  | none => True
  | some v => v ≠ .str "customer" ∧ v ≠ .str "bot" ∧ v ≠ .str "agent"

/-! ## Concrete fixtures used by counterexamples and witnesses -/

/-- A store holding one customer message whose external id is the empty
string (reachable: the dedup guard lets falsy ids through). -/
def c1db : DB :=
  ⟨[⟨1, .str "Ana", .str "5511", 0⟩], [⟨1, 1, "open", 0, 0, none⟩],
   [⟨1, .num 1, .str "oi", .null, none, .customer, .str "", 0, false⟩], 2, 2, 2, 1⟩

/-- A Z-API delivery carrying the empty-string message id. -/
def c1payload : J :=
  jO [("phone", .str "5511"), ("message", .str "oi de novo"), ("messageId", .str "")]

/-- A store holding one customer message with external id `W1`. -/
def c1wdb : DB :=
  ⟨[⟨1, .str "Ana", .str "5511", 0⟩], [⟨1, 1, "open", 0, 0, none⟩],
   [⟨1, .num 1, .str "oi", .null, none, .customer, .str "W1", 0, false⟩], 2, 2, 2, 1⟩

/-- A Z-API delivery repeating external id `W1`. -/
def c1wpayload : J :=
  jO [("phone", .str "5511"), ("message", .str "oi"), ("messageId", .str "W1")]

/-- A Z-API delivery with no message id at all. -/
def c1wpayloadNoId : J := jO [("phone", .str "5511"), ("message", .str "oi")]

/-- An operator-authored (from-me) Z-API delivery. -/
def c2payload : J :=
  jO [("phone", .str "5511"), ("message", .str "oi"), ("fromMe", .bool true)]

/-- A registry with a failing connection registered before a healthy one. -/
def c3hub : Hub := ⟨[⟨1, false⟩, ⟨2, true⟩]⟩

/-- A first-contact customer message from a fresh number. -/
def c4payload : J := jO [("phone", .str "5511"), ("message", .str "oi")]

/-- A Z-API payload whose `image` field is not an object. -/
def c5payload : J := jO [("phone", .str "5511"), ("image", .str "x")]

/-- An Evolution payload whose `data` field is not an object. -/
def c5evoPayload : J := jO [("event", .str "messages.upsert"), ("data", .num 5)]

/-- A group-originated Evolution message (group-suffix marker on the
remote identifier). -/
def c6payload : J :=
  jO [("event", .str "messages.upsert"),
      ("data", jO [("key", jO [("remoteJid", .str "123@g.us")]),
                   ("message", jO [("conversation", .str "hi")]),
                   ("pushName", .str "G")])]

/-- A group-flagged Z-API payload. -/
def c6zgroup : JObj :=
  match jO [("isGroup", .bool true), ("message", .str "hi")] with
  | .obj fs => fs
  | _ => .nil

/-- A Z-API status callback. -/
def c6zstatus : JObj :=
  match jO [("type", .str "MessageStatus")] with
  | .obj fs => fs
  | _ => .nil

/-- An Evolution connection-status event. -/
def c6evoStatus : JObj :=
  match jO [("event", .str "connection.update")] with
  | .obj fs => fs
  | _ => .nil

/-- A store with one customer who already has an open conversation. -/
def c7db : DB :=
  ⟨[⟨1, .str "A", .str "5", 0⟩], [⟨1, 1, "open", 0, 0, none⟩], [], 2, 2, 1, 1⟩

/-- A Z-API payload with no resolvable phone value. -/
def c8payload : J := jO [("message", .str "oi")]

/-- A first-contact customer message (greeting succeeds end to end). -/
def c9payload : J := jO [("phone", .str "5511"), ("message", .str "oi")]

/-- A websocket frame whose `sender_type` names no `SenderType` member. -/
def c10fs : JObj :=
  match jO [("conversation_id", .num 1), ("content", .str "oi"),
            ("sender_type", .str "boss")] with
  | .obj fs => fs
  | _ => .nil

/-! ## Helper lemmas: counting and transport -/

theorem countP_map_eq {α : Type} (f : α → α) (p : α → Bool)
    (h : ∀ a, p (f a) = p a) (l : List α) : (l.map f).countP p = l.countP p := by
  induction l with
  | nil => rfl
  | cons a t ih => simp [List.countP_cons, h, ih]

theorem botCount_of_msgs {db db' : DB} (h : db'.messages = db.messages) (cid : J) :
    botCount db' cid = botCount db cid := by
  simp only [botCount, h]

theorem trigCount_of_msgs {db db' : DB} (h : db'.messages = db.messages) (cid : J) :
    trigCount db' cid = trigCount db cid := by
  simp only [trigCount, h]

theorem trigInv_of_msgs {db db' : DB} (h : db'.messages = db.messages) :
    TrigInv db → TrigInv db' := by
  intro hi cid
  rw [trigCount_of_msgs h, botCount_of_msgs h]
  exact hi cid

theorem tick_messages (db : DB) : (tick db).messages = db.messages := rfl

theorem tick_conversations (db : DB) : (tick db).conversations = db.conversations := rfl

theorem touchConv_messages (db : DB) (c t : Nat) :
    (touchConv db c t).messages = db.messages := rfl

theorem touchConvJ_messages (db : DB) (j : J) (t : Nat) :
    (touchConvJ db j t).messages = db.messages := rfl

theorem insertMessage_conversations (db : DB) (m : Message) :
    (insertMessage db m).conversations = db.conversations := rfl

theorem upsertCustomer_fst_messages (db : DB) (n p : J) (f : Bool) :
    (upsertCustomer db n p f).1.messages = db.messages := by
  unfold upsertCustomer
  split
  · split <;> rfl
  · rfl

theorem upsertCustomer_fst_conversations (db : DB) (n p : J) (f : Bool) :
    (upsertCustomer db n p f).1.conversations = db.conversations := by
  unfold upsertCustomer
  split
  · split <;> rfl
  · rfl

theorem upsertCustomer_fst_nextMessageId (db : DB) (n p : J) (f : Bool) :
    (upsertCustomer db n p f).1.nextMessageId = db.nextMessageId := by
  unfold upsertCustomer
  split
  · split <;> rfl
  · rfl

theorem upsertCustomer_fst_now (db : DB) (n p : J) (f : Bool) :
    (upsertCustomer db n p f).1.now = db.now := by
  unfold upsertCustomer
  split
  · split <;> rfl
  · rfl

theorem openConvFor_fst_messages (db : DB) (cid : Nat) :
    (openConvFor db cid).1.messages = db.messages := by
  unfold openConvFor
  split <;> rfl

theorem openConvFor_fst_customers (db : DB) (cid : Nat) :
    (openConvFor db cid).1.customers = db.customers := by
  unfold openConvFor
  split <;> rfl

theorem openConvFor_fst_nextMessageId (db : DB) (cid : Nat) :
    (openConvFor db cid).1.nextMessageId = db.nextMessageId := by
  unfold openConvFor
  split <;> rfl

theorem openConvFor_fst_now (db : DB) (cid : Nat) :
    (openConvFor db cid).1.now = db.now := by
  unfold openConvFor
  split <;> rfl

theorem openConvFor_snd_mem (db : DB) (cid : Nat) :
    (openConvFor db cid).2 ∈ (openConvFor db cid).1.conversations := by
  unfold openConvFor
  split
  · next c hc =>
    exact List.mem_of_find?_eq_some hc
  · simp

theorem botCount_insert (db : DB) (m : Message) (cid : J) :
    botCount (insertMessage db m) cid = botCount db cid +
      (if m.conversationId == cid && m.senderType == SenderType.bot then 1 else 0) := by
  simp [botCount, insertMessage, List.countP_append, List.countP_cons]

theorem trigCount_insert (db : DB) (m : Message) (cid : J) :
    trigCount (insertMessage db m) cid = trigCount db cid +
      (if m.conversationId == cid && m.senderType == SenderType.bot && m.viaTrigger
       then 1 else 0) := by
  simp [trigCount, insertMessage, List.countP_append, List.countP_cons]

theorem trigCount_insert_nontrig {m : Message} (db : DB) (hv : m.viaTrigger = false)
    (cid : J) : trigCount (insertMessage db m) cid = trigCount db cid := by
  rw [trigCount_insert, hv]
  simp

theorem trigInv_insert_nontrig (db : DB) (m : Message) (hv : m.viaTrigger = false)
    (hi : TrigInv db) : TrigInv (insertMessage db m) := by
  intro cid
  rw [trigCount_insert_nontrig db hv, botCount_insert]
  exact ⟨(hi cid).1, le_trans (hi cid).2 (Nat.le_add_right _ _)⟩

theorem trigInv_insert_trig (db : DB) (m : Message)
    (hb : botCount db m.conversationId = 0) (hs : m.senderType = SenderType.bot)
    (hi : TrigInv db) : TrigInv (insertMessage db m) := by
  intro cid
  rw [trigCount_insert, botCount_insert]
  by_cases hc : m.conversationId == cid
  · have hcid : m.conversationId = cid := eq_of_beq hc
    have h0 : botCount db cid = 0 := hcid ▸ hb
    have ht0 : trigCount db cid = 0 := Nat.le_zero.mp (h0 ▸ (hi cid).2)
    rw [h0, ht0, hc, hs]
    simp
    split <;> simp
  · simp only [hc, Bool.false_and, Bool.and_false, if_false]
    exact ⟨by simpa using (hi cid).1, by simpa using (hi cid).2⟩

theorem botCount_setMsgWid (db : DB) (mid : Nat) (wid : J) (cid : J) :
    botCount (setMsgWid db mid wid) cid = botCount db cid := by
  unfold botCount setMsgWid
  apply countP_map_eq
  intro a
  split <;> rfl

theorem trigCount_setMsgWid (db : DB) (mid : Nat) (wid : J) (cid : J) :
    trigCount (setMsgWid db mid wid) cid = trigCount db cid := by
  unfold trigCount setMsgWid
  apply countP_map_eq
  intro a
  split <;> rfl

theorem trigInv_setMsgWid {db : DB} (mid : Nat) (wid : J) (hi : TrigInv db) :
    TrigInv (setMsgWid db mid wid) := by
  intro cid
  rw [botCount_setMsgWid, trigCount_setMsgWid]
  exact hi cid

/-! ## Helper lemmas: the greeting blocks -/

theorem botCount_eq_zero_of_any_false {db : DB} {convId : Nat}
    (h : db.messages.any (fun m =>
      m.conversationId == J.num convId && m.senderType == SenderType.bot) = false) :
    botCount db (J.num convId) = 0 := by
  rw [botCount, List.countP_eq_zero]
  intro a ha
  simpa using List.any_eq_false.mp h a ha

theorem zapiGreet_conversations (db : DB) (convId : Nat) (gen : Except Unit String)
    (send : Except Unit (Option String)) :
    (zapiGreet db convId gen send).conversations = db.conversations := by
  unfold zapiGreet
  split
  · rfl
  cases gen with
  | error e => rfl
  | ok s =>
    dsimp only
    split
    · rfl
    cases send with
    | error e => rfl
    | ok wid =>
      dsimp only
      split <;> rfl

theorem zapiGreet_msgs_mono (db : DB) (convId : Nat) (gen : Except Unit String)
    (send : Except Unit (Option String)) :
    List.Sublist db.messages (zapiGreet db convId gen send).messages := by
  unfold zapiGreet
  split
  · exact List.Sublist.refl _
  cases gen with
  | error e => exact List.Sublist.refl _
  | ok s =>
    dsimp only
    split
    · exact List.Sublist.refl _
    cases send with
    | error e => exact List.Sublist.refl _
    | ok wid =>
      dsimp only
      split
      · exact List.Sublist.refl _
      · exact List.sublist_append_left _ _

theorem trigInv_zapiGreet {db : DB} (convId : Nat) (gen : Except Unit String)
    (send : Except Unit (Option String)) (hi : TrigInv db) :
    TrigInv (zapiGreet db convId gen send) := by
  unfold zapiGreet
  split
  · exact hi
  next hany =>
    have hb : botCount db (J.num convId) = 0 :=
      botCount_eq_zero_of_any_false (Bool.not_eq_true _ ▸ hany)
    cases gen with
    | error e => exact hi
    | ok s =>
      dsimp only
      split
      · exact hi
      cases send with
      | error e => exact hi
      | ok wid =>
        dsimp only
        split
        · exact hi
        · exact trigInv_of_msgs (tick_messages _) (trigInv_insert_trig _ _ hb rfl hi)

theorem evoGreet_conversations (db : DB) (convId : Nat) (gen : Except Unit String) :
    (evoGreet db convId gen).2.conversations = db.conversations := by
  unfold evoGreet
  split
  · cases gen <;> rfl
  · rfl

theorem evoGreet_msgs_mono (db : DB) (convId : Nat) (gen : Except Unit String) :
    List.Sublist db.messages (evoGreet db convId gen).2.messages := by
  unfold evoGreet
  split
  · cases gen with
    | error e => exact List.Sublist.refl _
    | ok s => exact List.sublist_append_left _ _
  · exact List.Sublist.refl _

theorem trigInv_evoGreet {db : DB} (convId : Nat) (gen : Except Unit String)
    (hi : TrigInv db) : TrigInv (evoGreet db convId gen).2 := by
  unfold evoGreet
  split
  next hz =>
    have hb : botCount db (J.num convId) = 0 := by
      rw [botCount]
      simpa using hz
    cases gen with
    | error e => exact hi
    | ok s => exact trigInv_of_msgs (tick_messages _) (trigInv_insert_trig _ _ hb rfl hi)
  · exact hi

/-! ## Helper lemmas: per-operation TrigInv preservation -/

theorem zapiResolve_fst_messages (db : DB) (ev : ZEvent) (ph : J) :
    (zapiResolve db ev ph).1.messages = db.messages := by
  unfold zapiResolve
  dsimp only
  rw [openConvFor_fst_messages, upsertCustomer_fst_messages]

theorem evoResolve_fst_messages (db : DB) (n c ph : J) :
    (evoResolve db n c ph).1.messages = db.messages := by
  unfold evoResolve
  dsimp only
  rw [openConvFor_fst_messages, upsertCustomer_fst_messages]

theorem trigInv_zapiCommit {db : DB} (ev : ZEvent) (ph : J) (hi : TrigInv db) :
    TrigInv (zapiCommit db ev ph) :=
  trigInv_of_msgs (tick_messages _)
    (trigInv_of_msgs (touchConv_messages _ _ _)
      (trigInv_insert_nontrig _ _ rfl
        (trigInv_of_msgs (zapiResolve_fst_messages _ _ _) hi)))

theorem trigInv_evoCommit {db : DB} (n ct ph : J) (hi : TrigInv db) :
    TrigInv (evoCommit db n ct ph) :=
  trigInv_of_msgs (tick_messages _)
    (trigInv_of_msgs (touchConv_messages _ _ _)
      (trigInv_insert_nontrig _ _ rfl
        (trigInv_of_msgs (evoResolve_fst_messages _ _ _ _) hi)))

theorem trigInv_zapiIngest {db : DB} {ev : ZEvent} {gen : Except Unit String}
    {send : Except Unit (Option String)} (hi : TrigInv db) :
    TrigInv (zapiIngest db ev gen send).2 := by
  unfold zapiIngest
  split
  · exact hi
  split
  · exact hi
  split
  · exact trigInv_zapiCommit _ _ hi
  · exact trigInv_zapiGreet _ _ _ (trigInv_zapiCommit _ _ hi)

theorem trigInv_zapi {db : DB} {p : J} {gen : Except Unit String}
    {send : Except Unit (Option String)} (hi : TrigInv db) :
    TrigInv (zapiWebhook db p gen send).2 := by
  unfold zapiWebhook
  cases hz : zapiProcessWebhook p with
  | error e => exact hi
  | ok o =>
    cases o with
    | none => exact hi
    | some ev =>
      dsimp only
      split
      · exact hi
      · exact trigInv_zapiIngest hi

theorem trigInv_evo {db : DB} {p : J} {gen : Except Unit String} (hi : TrigInv db) :
    TrigInv (evolutionWebhook db p gen).2 := by
  unfold evolutionWebhook
  cases hz : zapiProcessWebhook p with
  | error e => exact hi
  | ok o =>
    cases o with
    | none => exact hi
    | some ev =>
      dsimp only
      split
      · exact hi
      · exact trigInv_evoGreet _ _ (trigInv_evoCommit _ _ _ hi)

theorem trigInv_ws {db : DB} {p : J} {gen : Except Unit String} (hi : TrigInv db) :
    TrigInv (wsReceive db p gen) := by
  unfold wsReceive
  cases p with
  | null => exact hi
  | bool b => exact hi
  | num n => exact hi
  | str s => exact hi
  | arr xs => exact hi
  | obj fs =>
    dsimp only
    have h1 : TrigInv (tick (touchConvJ (insertMessage db
        ⟨db.nextMessageId, oget fs "conversation_id", oget fs "content", .null, none,
         wsSenderType (ogetD fs "sender_type" (.str "customer")), .null, db.now, false⟩)
        (oget fs "conversation_id") db.now)) :=
      trigInv_of_msgs (tick_messages _)
        (trigInv_of_msgs (touchConvJ_messages _ _ _) (trigInv_insert_nontrig _ _ rfl hi))
    split
    · split
      next hz =>
        cases gen with
        | error e => exact h1
        | ok s =>
          dsimp only
          apply trigInv_of_msgs (tick_messages _)
          apply trigInv_of_msgs (touchConvJ_messages _ _ _)
          apply trigInv_insert_trig _ _ ?_ rfl h1
          rw [botCount]
          simpa using hz
      · exact h1
    · exact h1

theorem trigInv_encarteStep (content mu : J) (mt : Option String) {db : DB}
    (cust : Customer) (hi : TrigInv db) :
    TrigInv (encarteStep content mu mt db cust) := by
  unfold encarteStep
  cases hoc : openConvDesc db cust.id with
  | some c =>
    dsimp only
    exact trigInv_insert_nontrig _ _ rfl hi
  | none =>
    dsimp only
    exact trigInv_insert_nontrig _ _ rfl (trigInv_of_msgs rfl hi)

theorem trigInv_agent {db : DB} {convId : Nat} {content mu : J} {mt : Option String}
    {send : Except Unit (Option String)} (hi : TrigInv db) :
    TrigInv (sendMessageWithAttachment db convId content mu mt send).2 := by
  unfold sendMessageWithAttachment
  cases hf : db.conversations.find? (fun c => c.id == convId) with
  | none => exact hi
  | some c =>
    dsimp only
    have h1 : TrigInv (tick (touchConv (insertMessage db
        ⟨db.nextMessageId, J.num convId, content, mu, mt, .agent, .null, db.now, false⟩)
        convId db.now)) :=
      trigInv_of_msgs (tick_messages _)
        (trigInv_of_msgs (touchConv_messages _ _ _) (trigInv_insert_nontrig _ _ rfl hi))
    cases send with
    | error e => exact h1
    | ok wid =>
      cases wid with
      | none => exact h1
      | some i =>
        dsimp only
        split
        · exact h1
        · exact trigInv_of_msgs (tick_messages _) (trigInv_setMsgWid _ _ h1)

theorem foldl_pres {α : Type} {P : DB → Prop} {f : DB → α → DB}
    (h : ∀ db a, P db → P (f db a)) :
    ∀ (l : List α) (db : DB), P db → P (l.foldl f db) := by
  intro l
  induction l with
  | nil => exact fun db hp => hp
  | cons a t ih => exact fun db hp => ih _ (h db a hp)

theorem trigInv_step {db : DB} (op : Op) (hi : TrigInv db) : TrigInv (step db op) := by
  cases op with
  | zapi p g s => exact trigInv_zapi hi
  | evo p g => exact trigInv_evo hi
  | ws p g => exact trigInv_ws hi
  | encarte ids c mu mt =>
    show TrigInv (broadcastEncarte db ids c mu mt)
    unfold broadcastEncarte
    exact trigInv_of_msgs (tick_messages _)
      (foldl_pres (fun d cust h => trigInv_encarteStep _ _ _ _ h) _ _ hi)
  | agent convId c mu mt s => exact trigInv_agent hi
  | createConv cid st oid => exact trigInv_of_msgs rfl hi

theorem trigInv_empty : TrigInv emptyDB := by
  intro cid
  constructor <;> simp [trigCount, botCount, emptyDB]

theorem trigInv_runOps (ops : List Op) : TrigInv (runOps emptyDB ops) :=
  foldl_pres (fun _ op h => trigInv_step op h) ops emptyDB trigInv_empty

/-! ## Helper lemmas: OneOpen preservation -/

theorem openCount_of_convs {db db' : DB} (h : db'.conversations = db.conversations)
    (k : Nat) : openCount db' k = openCount db k := by
  simp only [openCount, h]

theorem oneOpen_of_convs {db db' : DB} (h : db'.conversations = db.conversations) :
    OneOpen db → OneOpen db' := by
  intro hi k
  rw [openCount_of_convs h]
  exact hi k

theorem oneOpen_touchConv {db : DB} (c t : Nat) (h : OneOpen db) :
    OneOpen (touchConv db c t) := by
  intro k
  have he : openCount (touchConv db c t) k = openCount db k := by
    unfold openCount touchConv
    apply countP_map_eq
    intro a
    split <;> rfl
  rw [he]
  exact h k

theorem oneOpen_of_append {db db' : DB} {c : Conversation}
    (hc : db'.conversations = db.conversations ++ [c])
    (h0 : openCount db c.customerId = 0) (h : OneOpen db) : OneOpen db' := by
  intro k
  unfold openCount at *
  rw [hc, List.countP_append]
  by_cases hk : k = c.customerId
  · subst hk
    rw [h0]
    simp only [List.countP_cons, List.countP_nil, Nat.zero_add]
    split <;> simp
  · have hne : (c.customerId == k) = false := by
      simp [Ne.symm hk]
    calc db.conversations.countP (fun x => x.customerId == k && x.status == "open") +
          [c].countP (fun x => x.customerId == k && x.status == "open")
        = db.conversations.countP (fun x => x.customerId == k && x.status == "open") := by
          simp [List.countP_cons, hne]
      _ ≤ 1 := h k

theorem oneOpen_openConvFor {db : DB} (custId : Nat) (h : OneOpen db) :
    OneOpen (openConvFor db custId).1 := by
  unfold openConvFor
  cases hf : db.conversations.find? (fun c => c.customerId == custId && c.status == "open") with
  | some c => exact h
  | none =>
    have h0 : openCount db custId = 0 := by
      unfold openCount
      rw [List.countP_eq_zero]
      intro a ha
      simpa using List.find?_eq_none.mp hf a ha
    exact oneOpen_of_append rfl h0 h

theorem oneOpen_zapiResolve {db : DB} (ev : ZEvent) (ph : J) (h : OneOpen db) :
    OneOpen (zapiResolve db ev ph).1 := by
  unfold zapiResolve
  dsimp only
  exact oneOpen_openConvFor _ (oneOpen_of_convs (upsertCustomer_fst_conversations _ _ _ _) h)

theorem oneOpen_evoResolve {db : DB} (n c ph : J) (h : OneOpen db) :
    OneOpen (evoResolve db n c ph).1 := by
  unfold evoResolve
  dsimp only
  exact oneOpen_openConvFor _ (oneOpen_of_convs (upsertCustomer_fst_conversations _ _ _ _) h)

theorem oneOpen_zapiCommit {db : DB} (ev : ZEvent) (ph : J) (h : OneOpen db) :
    OneOpen (zapiCommit db ev ph) :=
  oneOpen_of_convs (tick_conversations _)
    (oneOpen_touchConv _ _
      (oneOpen_of_convs (insertMessage_conversations _ _) (oneOpen_zapiResolve _ _ h)))

theorem oneOpen_evoCommit {db : DB} (n ct ph : J) (h : OneOpen db) :
    OneOpen (evoCommit db n ct ph) :=
  oneOpen_of_convs (tick_conversations _)
    (oneOpen_touchConv _ _
      (oneOpen_of_convs (insertMessage_conversations _ _) (oneOpen_evoResolve _ _ _ h)))

theorem oneOpen_zapiIngest {db : DB} {ev : ZEvent} {gen : Except Unit String}
    {send : Except Unit (Option String)} (h : OneOpen db) :
    OneOpen (zapiIngest db ev gen send).2 := by
  unfold zapiIngest
  split
  · exact h
  split
  · exact h
  split
  · exact oneOpen_zapiCommit _ _ h
  · exact oneOpen_of_convs (zapiGreet_conversations _ _ _ _) (oneOpen_zapiCommit _ _ h)

theorem oneOpen_zapi {db : DB} (p : J) (gen : Except Unit String)
    (send : Except Unit (Option String)) (h : OneOpen db) :
    OneOpen (zapiWebhook db p gen send).2 := by
  unfold zapiWebhook
  cases hz : zapiProcessWebhook p with
  | error e => exact h
  | ok o =>
    cases o with
    | none => exact h
    | some ev =>
      dsimp only
      split
      · exact h
      · exact oneOpen_zapiIngest h

theorem oneOpen_evo {db : DB} (p : J) (gen : Except Unit String) (h : OneOpen db) :
    OneOpen (evolutionWebhook db p gen).2 := by
  unfold evolutionWebhook
  cases hz : zapiProcessWebhook p with
  | error e => exact h
  | ok o =>
    cases o with
    | none => exact h
    | some ev =>
      dsimp only
      split
      · exact h
      · exact oneOpen_of_convs (evoGreet_conversations _ _ _) (oneOpen_evoCommit _ _ _ h)

theorem filter_nil_of_openConvDesc_none {db : DB} {custId : Nat}
    (h : openConvDesc db custId = none) :
    db.conversations.filter (fun c => c.customerId == custId && c.status == "open") = [] := by
  unfold openConvDesc at h
  cases hf : db.conversations.filter (fun c => c.customerId == custId && c.status == "open") with
  | nil => rfl
  | cons a t =>
    rw [hf] at h
    simp at h

theorem oneOpen_encarteStep (content mu : J) (mt : Option String) {db : DB}
    (cust : Customer) (h : OneOpen db) :
    OneOpen (encarteStep content mu mt db cust) := by
  unfold encarteStep
  cases hoc : openConvDesc db cust.id with
  | some c =>
    dsimp only
    exact oneOpen_of_convs (insertMessage_conversations _ _) h
  | none =>
    dsimp only
    apply oneOpen_of_convs (insertMessage_conversations _ _)
    apply oneOpen_of_append rfl ?_ h
    unfold openCount
    rw [List.countP_eq_length_filter, filter_nil_of_openConvDesc_none hoc]
    rfl

theorem oneOpen_encarte {db : DB} (ids : List Nat) (content : String) (mu : J)
    (mt : Option String) (h : OneOpen db) :
    OneOpen (broadcastEncarte db ids content mu mt) := by
  unfold broadcastEncarte
  exact oneOpen_of_convs (tick_conversations _)
    (foldl_pres (fun d cust hp => oneOpen_encarteStep _ _ _ _ hp) _ _ h)

/-! ## Helper lemmas: responses, no-op greetings, witnesses of persistence -/

theorem botCount_insert_nonbot (db : DB) (m : Message) (cid : J)
    (hs : (m.senderType == SenderType.bot) = false) :
    botCount (insertMessage db m) cid = botCount db cid := by
  rw [botCount_insert, hs]
  simp

theorem zapiGreet_noSend (db : DB) (convId : Nat) (gen : Except Unit String)
    (send : Except Unit (Option String))
    (h : gen = .error () ∨ gen = .ok "" ∨ send = .error ()) :
    zapiGreet db convId gen send = db := by
  unfold zapiGreet
  rcases h with h | h | h
  · subst h
    split <;> rfl
  · subst h
    split
    · rfl
    · simp
  · subst h
    split
    · rfl
    cases gen with
    | error e => rfl
    | ok s =>
      dsimp only
      split <;> rfl

theorem zapiIngest_resp_ne (db : DB) (ev : ZEvent) (gen : Except Unit String)
    (send : Except Unit (Option String)) :
    (zapiIngest db ev gen send).1 ≠ Resp.status "already_processed" := by
  unfold zapiIngest
  split
  · simp
  split
  · simp
  split <;> simp

theorem zapiResolve_snd_mem (db : DB) (ev : ZEvent) (ph : J) :
    (zapiResolve db ev ph).2.1 ∈ (zapiResolve db ev ph).1.conversations := by
  unfold zapiResolve
  dsimp only
  exact openConvFor_snd_mem _ _

theorem evoResolve_snd_mem (db : DB) (n c ph : J) :
    (evoResolve db n c ph).2.1 ∈ (evoResolve db n c ph).1.conversations := by
  unfold evoResolve
  dsimp only
  exact openConvFor_snd_mem _ _

theorem touchConv_mem_self {db : DB} {c : Conversation} (hc : c ∈ db.conversations)
    (t : Nat) :
    { c with updatedAt := t } ∈ (touchConv db c.id t).conversations := by
  unfold touchConv
  dsimp only
  have he : { c with updatedAt := t } =
      (fun x => if x.id = c.id then { x with updatedAt := t } else x) c := by
    simp
  rw [he]
  exact List.mem_map_of_mem _ hc

theorem mem_insertMessage_self (db : DB) (m : Message) :
    m ∈ (insertMessage db m).messages := by
  unfold insertMessage
  simp

theorem any_false_of_botCount_zero {db : DB} {convId : Nat}
    (h : botCount db (J.num convId) = 0) :
    db.messages.any (fun m =>
      m.conversationId == J.num convId && m.senderType == SenderType.bot) = false := by
  rw [List.any_eq_false]
  intro a ha
  rw [botCount, List.countP_eq_zero] at h
  simpa using h a ha

/-! ## Claim theorems -/

/-- C1 (counterexample): the claim fails for a non-null but empty external
id.  The Z-API adapter normalizes `messageId: ""` to the non-null value
`""`; it equals the external id of a stored Message, yet the webhook does
not answer `already_processed` — the empty id is falsy, slips past the
dedup guard, and the insert then dies on the unique constraint. -/
theorem c1_counterexample :
    (∃ ev, zapiProcessWebhook c1payload = .ok (some ev) ∧
       ev.whatsappId = J.str "" ∧ J.str "" ≠ J.null ∧
       ∃ m, m ∈ c1db.messages ∧ m.whatsappId = J.str "") ∧
    (zapiWebhook c1db c1payload (.error ()) (.ok none)).1 ≠
      Resp.status "already_processed" ∧
    (zapiWebhook c1db c1payload (.error ()) (.ok none)).1 =
      Resp.serverError "IntegrityError" := by
  refine ⟨⟨_, rfl, rfl, by decide, ?_⟩, by decide, by decide⟩
  exact ⟨⟨1, .num 1, .str "oi", .null, none, .customer, .str "", 0, false⟩, by decide, rfl⟩

/-- C1 (amended): for every inbound event whose normalized external id is
truthy (non-null and non-empty) and equal to the external id of a stored
Message, the webhook answers `already_processed` and leaves the store
untouched; every event whose external id is null passes the dedup check
(the webhook never answers `already_processed` for it). -/
theorem c1_theorem :
    (∀ (db : DB) (p : J) (gen : Except Unit String) (send : Except Unit (Option String))
       (ev : ZEvent),
       zapiProcessWebhook p = .ok (some ev) →
       truthy ev.whatsappId = true →
       db.messages.any (fun m => m.whatsappId == ev.whatsappId) = true →
       zapiWebhook db p gen send = (.status "already_processed", db)) ∧
    (∀ (db : DB) (p : J) (gen : Except Unit String) (send : Except Unit (Option String))
       (ev : ZEvent),
       zapiProcessWebhook p = .ok (some ev) →
       ev.whatsappId = J.null →
       (zapiWebhook db p gen send).1 ≠ .status "already_processed") := by
  constructor
  · intro db p gen send ev hz h1 h2
    unfold zapiWebhook
    rw [hz]
    have hd : dedupHit db ev.whatsappId = true := by
      unfold dedupHit
      rw [h1, h2]
      rfl
    simp [hd]
  · intro db p gen send ev hz h
    unfold zapiWebhook
    rw [hz]
    have hd : dedupHit db ev.whatsappId = false := by
      unfold dedupHit
      rw [h]
      rfl
    simp only [hd, Bool.false_eq_true, if_false]
    exact zapiIngest_resp_ne _ _ _ _

/-- C1 (witness): a repeated non-empty id is acknowledged as already
processed with no store change; an event with no id is not. -/
theorem c1_witness :
    zapiWebhook c1wdb c1wpayload (.error ()) (.ok none) =
      (.status "already_processed", c1wdb) ∧
    (zapiWebhook c1wdb c1wpayloadNoId (.error ()) (.ok none)).1 ≠
      .status "already_processed" :=
  ⟨c1_theorem.1 c1wdb c1wpayload _ _ _ rfl (by decide) (by decide),
   c1_theorem.2 c1wdb c1wpayloadNoId _ _ _ rfl rfl⟩

/-- C2: over every trace of pipeline operations from an empty store, each
conversation key carries at most one bot message persisted by a
first-contact greeting block; a from-me event never adds a greeting
message on the Z-API endpoint; and a from-me event posted to the
evolution endpoint (which also normalizes through the Z-API adapter,
since the factory always returns it) leaves the store untouched. -/
theorem c2_theorem :
    (∀ (ops : List Op) (cid : J), trigCount (runOps emptyDB ops) cid ≤ 1) ∧
    (∀ (db : DB) (p : J) (gen : Except Unit String) (send : Except Unit (Option String))
       (ev : ZEvent),
       zapiProcessWebhook p = .ok (some ev) → ev.fromMe = true →
       ∀ cid, trigCount (zapiWebhook db p gen send).2 cid = trigCount db cid) ∧
    (∀ (db : DB) (p : J) (gen : Except Unit String) (ev : ZEvent),
       zapiProcessWebhook p = .ok (some ev) → ev.fromMe = true →
       (evolutionWebhook db p gen).2 = db) := by
  refine ⟨fun ops cid => (trigInv_runOps ops cid).1, ?_, ?_⟩
  · intro db p gen send ev hz hf cid
    unfold zapiWebhook
    rw [hz]
    dsimp only
    split
    · rfl
    unfold zapiIngest
    split
    · rfl
    split
    · rfl
    exact (trigCount_of_msgs rfl cid).trans
      ((trigCount_insert_nontrig _ rfl cid).trans
        (trigCount_of_msgs (zapiResolve_fst_messages _ _ _) cid))
  · intro db p gen ev hz hf
    unfold evolutionWebhook
    rw [hz]
    dsimp only
    rw [if_pos hf]

/-- C2 (witness): the invariant evaluated after a successful greeting
trace, and the from-me conjuncts at a concrete operator-authored event
handled by each endpoint. -/
theorem c2_witness :
    trigCount (runOps emptyDB [Op.zapi c9payload (.ok "Ola!") (.ok none)]) (J.num 1) ≤ 1 ∧
    trigCount (zapiWebhook c1wdb c2payload (.ok "hi") (.ok none)).2 (J.num 1) =
      trigCount c1wdb (J.num 1) ∧
    (evolutionWebhook emptyDB c2payload (.ok "hi")).2 = emptyDB :=
  ⟨c2_theorem.1 _ _,
   c2_theorem.2.1 c1wdb c2payload _ _ _ rfl rfl (J.num 1),
   c2_theorem.2.2 emptyDB c2payload _ _ rfl rfl⟩

/-- C3: on the registry `[failing, healthy]`, `broadcast` delivers to
nobody (the raise on the first connection aborts the loop before the
healthy connection is reached) and the failing connection stays
registered — the code implements neither isolation nor removal. -/
theorem c3_theorem :
    (hubBroadcast c3hub).1 = ([], some 1) ∧
    (2 : Nat) ∉ (hubBroadcast c3hub).1.1 ∧
    (⟨1, false⟩ : Conn) ∈ (hubBroadcast c3hub).2.active := by
  refine ⟨rfl, by decide, by decide⟩

/-- C5: both adapters raise on well-formed JSON payloads — Z-API when the
`image` field is not an object (`data["image"].get(...)` on a string),
Evolution when the `data` field is not an object. -/
theorem c5_theorem :
    zapiProcessWebhook c5payload = .error "AttributeError" ∧
    evoProcessWebhook c5evoPayload = .error "AttributeError" :=
  ⟨rfl, rfl⟩

/-- C8: a Z-API event with no phone value is not acknowledged `no_phone`:
the adapter renders the remote id as the string `None@c.us`, the webhook
derives the phone string `None` from it, persists a Customer with phone
`"None"`, a Conversation and a Message, and answers success.  The
evolution endpoint — which normalizes through the same adapter and has
no no-phone guard at all — persists the same bogus customer for that
payload instead of a `no_phone` acknowledgment. -/
theorem c8_theorem :
    (zapiWebhook emptyDB c8payload (.error ()) (.ok none)).1 = .status "success" ∧
    (∃ c, c ∈ (zapiWebhook emptyDB c8payload (.error ()) (.ok none)).2.customers ∧
       c.phone = .str "None") ∧
    (zapiWebhook emptyDB c8payload (.error ()) (.ok none)).2.messages ≠ [] ∧
    (evolutionWebhook emptyDB c8payload (.ok "Oi")).1 = .status "success" ∧
    (∃ c, c ∈ (evolutionWebhook emptyDB c8payload (.ok "Oi")).2.customers ∧
       c.phone = .str "None") := by
  refine ⟨rfl, ⟨⟨1, .str "Cliente", .str "None", 0⟩, by decide, rfl⟩, by decide, rfl,
    ⟨⟨1, .str "Cliente", .str "None", 0⟩, by decide, rfl⟩⟩

/-- C4 (counterexample): when greeting generation succeeds but outbound
delivery fails (the provider's handled failure path that returns no
message id), a bot Message IS persisted — with a null external id — so
the greeting gate closes, contrary to the claim. -/
theorem c4_counterexample :
    ∃ m, m ∈ (zapiWebhook emptyDB c4payload (.ok "Ola!") (.ok none)).2.messages ∧
      m.senderType = SenderType.bot ∧ m.whatsappId = J.null :=
  ⟨⟨2, .num 1, .str "Ola!", .null, none, .bot, .null, 1, true⟩, by decide, rfl, rfl⟩

/-- C4 (amended): if generation raises, or yields empty text, or the send
call itself raises, no bot Message is persisted (the bot-message count of
every conversation is unchanged, leaving the gate open); nothing already
persisted is ever rolled back (the message list only grows); but when
generation succeeds and the send merely returns no provider id (the
gateway's handled failure), the greeting block persists the bot Message
anyway, with a null external id. -/
theorem c4_theorem :
    (∀ (db : DB) (p : J) (gen : Except Unit String) (send : Except Unit (Option String))
       (cid : J),
       gen = .error () ∨ gen = .ok "" ∨ send = .error () →
       botCount (zapiWebhook db p gen send).2 cid = botCount db cid) ∧
    (∀ (db : DB) (p : J) (gen : Except Unit String) (send : Except Unit (Option String)),
       List.Sublist db.messages (zapiWebhook db p gen send).2.messages) ∧
    (∀ (db : DB) (convId : Nat) (s : String), s ≠ "" → botCount db (J.num convId) = 0 →
       (zapiGreet db convId (.ok s) (.ok none)).messages =
         db.messages ++ [⟨db.nextMessageId, J.num convId, .str s, .null, none,
           SenderType.bot, J.null, db.now, true⟩]) := by
  refine ⟨?_, ?_, ?_⟩
  · intro db p gen send cid h
    unfold zapiWebhook
    cases hz : zapiProcessWebhook p with
    | error e => rfl
    | ok o =>
      cases o with
      | none => rfl
      | some ev =>
        dsimp only
        split
        · rfl
        unfold zapiIngest
        split
        · rfl
        split
        · rfl
        have hs : (((zapiResolve db ev (zapiPhone ev)).2.2).senderType ==
            SenderType.bot) = false := by
          show ((if ev.fromMe then SenderType.agent else SenderType.customer) ==
            SenderType.bot) = false
          cases ev.fromMe <;> rfl
        have hc : botCount (zapiCommit db ev (zapiPhone ev)) cid = botCount db cid :=
          (botCount_of_msgs rfl cid).trans
            ((botCount_insert_nonbot _ _ cid hs).trans
              (botCount_of_msgs (zapiResolve_fst_messages _ _ _) cid))
        split
        · exact hc
        · rw [zapiGreet_noSend _ _ _ _ h]
          exact hc
  · intro db p gen send
    unfold zapiWebhook
    cases hz : zapiProcessWebhook p with
    | error e => exact List.Sublist.refl _
    | ok o =>
      cases o with
      | none => exact List.Sublist.refl _
      | some ev =>
        dsimp only
        split
        · exact List.Sublist.refl _
        unfold zapiIngest
        split
        · exact List.Sublist.refl _
        split
        · exact List.Sublist.refl _
        have hsub : List.Sublist db.messages (zapiCommit db ev (zapiPhone ev)).messages := by
          have h1 : db.messages = (zapiResolve db ev (zapiPhone ev)).1.messages :=
            (zapiResolve_fst_messages _ _ _).symm
          rw [h1]
          exact List.sublist_append_left _ _
        split
        · exact hsub
        · exact hsub.trans (zapiGreet_msgs_mono _ _ _ _)
  · intro db convId s hs hb
    unfold zapiGreet
    have ha := any_false_of_botCount_zero hb
    simp only [ha, Bool.false_eq_true, if_false]
    rw [if_neg hs]
    rfl

/-- C4 (witness): a failed generation leaves the bot count unchanged, and
a successful generation with a no-id send appends exactly the null-id bot
row. -/
theorem c4_witness :
    botCount (zapiWebhook emptyDB c4payload (.error ()) (.ok (some "W"))).2 (J.num 1) =
      botCount emptyDB (J.num 1) ∧
    (zapiGreet emptyDB 1 (.ok "Ola!") (.ok none)).messages =
      emptyDB.messages ++ [⟨1, J.num 1, .str "Ola!", .null, none, SenderType.bot,
        J.null, 0, true⟩] :=
  ⟨c4_theorem.1 emptyDB c4payload _ _ _ (Or.inl rfl),
   c4_theorem.2.2 emptyDB 1 "Ola!" (by decide) (by decide)⟩

/-- C6 (counterexample): the Evolution adapter does not return ignore for
a group-originated payload: a `messages.upsert` whose remote identifier
carries the `@g.us` group suffix is normalized to a full event.  (The
claim's conjunction fails on its adapter half; the pipeline itself never
persists this payload because the factory wires the Z-API adapter into
both endpoints.) -/
theorem c6_counterexample :
    evoProcessWebhook c6payload =
      .ok (.event (.str "123@g.us") (.str "G") (.str "hi")) ∧
    EvoResult.event (.str "123@g.us") (.str "G") (.str "hi") ≠ .ignore :=
  ⟨rfl, by decide⟩

/-- C6 (amended): the Z-API adapter — the only one the factory ever wires
into the endpoints — ignores every group-originated payload (explicit
flag or `@g.us` marker) and every known status/connection event, and a
payload it ignores leaves the store of either endpoint untouched, so no
group or status payload ever persists a Message; the Evolution adapter's
own code ignores every non-`messages.upsert` event (which covers its
status/connection events) but, contrary to the claim, performs no group
filtering — it returns a normalized event for a group-suffixed
`messages.upsert`. -/
theorem c6_theorem :
    (∀ fs : JObj, zapiIsGroup fs = true → zapiProcessWebhook (.obj fs) = .ok none) ∧
    (∀ fs : JObj, zapiRawType fs ∈ zapiStatusEvents →
       zapiProcessWebhook (.obj fs) = .ok none) ∧
    (∀ (db : DB) (p : J) (gen : Except Unit String) (send : Except Unit (Option String)),
       zapiProcessWebhook p = .ok none →
       zapiWebhook db p gen send = (.status "ignored", db)) ∧
    (∀ fs : JObj, oget fs "event" ≠ .str "messages.upsert" →
       evoProcessWebhook (.obj fs) = .ok .ignore) ∧
    (∀ (db : DB) (p : J) (gen : Except Unit String),
       zapiProcessWebhook p = .ok none →
       evolutionWebhook db p gen = (.status "ignored", db)) := by
  refine ⟨?_, ?_, ?_, ?_, ?_⟩
  · intro fs h
    unfold zapiProcessWebhook
    dsimp only
    split
    · rfl
    cases hi : zapiInferType fs with
    | none => rfl
    | some et =>
      dsimp only
      split
      · rfl
      · simp [h]
  · intro fs h
    unfold zapiProcessWebhook
    dsimp only
    rw [if_pos h]
  · intro db p gen send h
    unfold zapiWebhook
    rw [h]
  · intro fs h
    unfold evoProcessWebhook
    dsimp only
    rw [if_pos h]
  · intro db p gen h
    unfold evolutionWebhook
    rw [h]

/-- C6 (witness): a group-flagged payload and a status event are ignored
by the Z-API endpoint with no persistence; the Evolution adapter's code
ignores a connection-status event; and the evolution endpoint (wired to
the Z-API adapter) ignores the group-suffixed payload with no
persistence. -/
theorem c6_witness :
    zapiProcessWebhook (.obj c6zgroup) = .ok none ∧
    zapiProcessWebhook (.obj c6zstatus) = .ok none ∧
    zapiWebhook emptyDB (.obj c6zgroup) (.error ()) (.ok none) =
      (.status "ignored", emptyDB) ∧
    evoProcessWebhook (.obj c6evoStatus) = .ok .ignore ∧
    evolutionWebhook emptyDB c6payload (.error ()) = (.status "ignored", emptyDB) := by
  have h1 := c6_theorem.1 c6zgroup (by decide)
  have h2 := c6_theorem.2.1 c6zstatus (by decide)
  exact ⟨h1, h2, c6_theorem.2.2.1 emptyDB _ _ _ h1,
    c6_theorem.2.2.2.1 c6evoStatus (by decide),
    c6_theorem.2.2.2.2 emptyDB c6payload _ rfl⟩

/-- C7 (counterexample): the public create-conversation endpoint inserts
the requested row unconditionally: on a store where customer 1 already
has an open conversation, it creates a second one, violating the
invariant. -/
theorem c7_counterexample :
    OneOpen c7db ∧ ¬ OneOpen (createConversation c7db 1 "open" none) := by
  constructor
  · intro k
    exact le_trans (List.countP_le_length _) (by decide)
  · intro h
    have h1 := h 1
    revert h1
    decide

/-- C7 (amended): the webhook conversation resolution (both providers)
and the broadcast-encarte endpoint preserve the at-most-one-open-
conversation-per-customer invariant; the public create-conversation
endpoint does not. -/
theorem c7_theorem :
    (∀ (db : DB) (p : J) (gen : Except Unit String) (send : Except Unit (Option String)),
       OneOpen db → OneOpen (zapiWebhook db p gen send).2) ∧
    (∀ (db : DB) (p : J) (gen : Except Unit String),
       OneOpen db → OneOpen (evolutionWebhook db p gen).2) ∧
    (∀ (db : DB) (ids : List Nat) (content : String) (mu : J) (mt : Option String),
       OneOpen db → OneOpen (broadcastEncarte db ids content mu mt)) :=
  ⟨fun _ p gen send h => oneOpen_zapi p gen send h,
   fun _ p gen h => oneOpen_evo p gen h,
   fun _ ids content mu mt h => oneOpen_encarte ids content mu mt h⟩

/-- C7 (witness): the three preserving operations evaluated on a store
already holding an open conversation. -/
theorem c7_witness :
    OneOpen (zapiWebhook c7db c4payload (.error ()) (.ok none)).2 ∧
    OneOpen (evolutionWebhook c7db c6payload (.error ())).2 ∧
    OneOpen (broadcastEncarte c7db [] "promo" J.null none) :=
  ⟨c7_theorem.1 c7db c4payload _ _
     (fun _ => le_trans (List.countP_le_length _) (by decide)),
   c7_theorem.2.1 c7db c6payload _
     (fun _ => le_trans (List.countP_le_length _) (by decide)),
   c7_theorem.2.2 c7db [] "promo" J.null none
     (fun _ => le_trans (List.countP_le_length _) (by decide))⟩

/-- The committed inbound Z-API message sits next to a conversation row
whose updated-at equals the message's timestamp. -/
theorem zapiCommit_bump (db : DB) (ev : ZEvent) (ph : J) :
    ∃ m, m ∈ (zapiCommit db ev ph).messages ∧ m.senderType ≠ SenderType.bot ∧
      ∃ c, c ∈ (zapiCommit db ev ph).conversations ∧
        J.num c.id = m.conversationId ∧ c.updatedAt = m.timestamp := by
  refine ⟨(zapiResolve db ev ph).2.2, mem_insertMessage_self _ _, ?_, ?_⟩
  · show (if ev.fromMe then SenderType.agent else SenderType.customer) ≠ SenderType.bot
    cases ev.fromMe <;> simp
  · exact ⟨{ (zapiResolve db ev ph).2.1 with updatedAt := (zapiResolve db ev ph).1.now },
      touchConv_mem_self (zapiResolve_snd_mem db ev ph) _, rfl, rfl⟩

/-- The committed inbound Evolution message sits next to a conversation
row whose updated-at equals the message's timestamp. -/
theorem evoCommit_bump (db : DB) (n ct ph : J) :
    ∃ m, m ∈ (evoCommit db n ct ph).messages ∧ m.senderType = SenderType.customer ∧
      ∃ c, c ∈ (evoCommit db n ct ph).conversations ∧
        J.num c.id = m.conversationId ∧ c.updatedAt = m.timestamp :=
  ⟨(evoResolve db n ct ph).2.2, mem_insertMessage_self _ _, rfl,
   ⟨{ (evoResolve db n ct ph).2.1 with updatedAt := (evoResolve db n ct ph).1.now },
    touchConv_mem_self (evoResolve_snd_mem db n ct ph) _, rfl, rfl⟩⟩

/-- C9 (counterexample): after a successful first-contact run, the
persisted bot greeting's timestamp differs from its conversation's
updated-at — the greeting transaction never bumps the conversation. -/
theorem c9_counterexample :
    ∃ m, m ∈ (zapiWebhook emptyDB c9payload (.ok "Ola!") (.ok (some "W1"))).2.messages ∧
      m.senderType = SenderType.bot ∧
      ∀ c, c ∈ (zapiWebhook emptyDB c9payload (.ok "Ola!") (.ok (some "W1"))).2.conversations →
        J.num c.id = m.conversationId → c.updatedAt ≠ m.timestamp := by
  refine ⟨⟨2, .num 1, .str "Ola!", .null, none, .bot, .str "W1", 1, true⟩,
    by decide, rfl, ?_⟩
  decide

/-- C9 (amended): the inbound message persisted by a successful webhook
run bumps its conversation's updated-at to the message's own timestamp —
on both endpoints, which both normalize via the Z-API adapter — but the
greeting blocks leave every conversation row untouched, and
broadcast-encarte also keeps existing conversation rows (including their
updated-at) unchanged while persisting its bot messages. -/
theorem c9_theorem :
    (∀ (db : DB) (p : J) (gen : Except Unit String) (send : Except Unit (Option String)),
       (zapiWebhook db p gen send).1 = .status "success" →
       ∃ m, m ∈ (zapiWebhook db p gen send).2.messages ∧ m.senderType ≠ SenderType.bot ∧
         ∃ c, c ∈ (zapiWebhook db p gen send).2.conversations ∧
           J.num c.id = m.conversationId ∧ c.updatedAt = m.timestamp) ∧
    (∀ (db : DB) (p : J) (gen : Except Unit String) (ev : ZEvent),
       zapiProcessWebhook p = .ok (some ev) → ev.fromMe = false →
       ∃ m, m ∈ (evolutionWebhook db p gen).2.messages ∧
         m.senderType = SenderType.customer ∧
         ∃ c, c ∈ (evolutionWebhook db p gen).2.conversations ∧
           J.num c.id = m.conversationId ∧ c.updatedAt = m.timestamp) ∧
    (∀ (db : DB) (convId : Nat) (gen : Except Unit String)
       (send : Except Unit (Option String)),
       (zapiGreet db convId gen send).conversations = db.conversations) ∧
    (∀ (db : DB) (convId : Nat) (gen : Except Unit String),
       (evoGreet db convId gen).2.conversations = db.conversations) ∧
    (∀ (content mu : J) (mt : Option String) (db : DB) (cust : Customer)
       (c : Conversation),
       c ∈ db.conversations → c ∈ (encarteStep content mu mt db cust).conversations) := by
  refine ⟨?_, ?_, zapiGreet_conversations, evoGreet_conversations, ?_⟩
  · intro db p gen send hr
    unfold zapiWebhook at hr ⊢
    cases hz : zapiProcessWebhook p with
    | error e =>
      rw [hz] at hr
      exact absurd hr (by simp)
    | ok o =>
      cases o with
      | none =>
        rw [hz] at hr
        exact absurd hr (by simp)
      | some ev =>
        rw [hz] at hr
        dsimp only at hr ⊢
        by_cases hd : dedupHit db ev.whatsappId = true
        · rw [if_pos hd] at hr
          exact absurd hr (by simp)
        · rw [if_neg hd] at hr ⊢
          unfold zapiIngest at hr ⊢
          by_cases hp : (!truthy (zapiPhone ev)) = true
          · rw [if_pos hp] at hr
            exact absurd hr (by simp)
          · rw [if_neg hp] at hr ⊢
            by_cases hu : uniqueViolation (zapiResolve db ev (zapiPhone ev)).1
                (zapiResolve db ev (zapiPhone ev)).2.2 = true
            · rw [if_pos hu] at hr
              exact absurd hr (by simp)
            · rw [if_neg hu] at hr ⊢
              by_cases hf : ev.fromMe = true
              · rw [if_pos hf]
                exact zapiCommit_bump db ev (zapiPhone ev)
              · rw [if_neg hf]
                obtain ⟨m, hm, hs, c, hc, h1, h2⟩ := zapiCommit_bump db ev (zapiPhone ev)
                exact ⟨m, (zapiGreet_msgs_mono _ _ _ _).subset hm, hs, c,
                  by rw [zapiGreet_conversations]; exact hc, h1, h2⟩
  · intro db p gen ev hz hf
    unfold evolutionWebhook
    rw [hz]
    dsimp only
    rw [if_neg (by rw [hf]; exact Bool.false_ne_true)]
    obtain ⟨m, hm, hs, c, hc, h1, h2⟩ :=
      evoCommit_bump db ev.senderName ev.content (.str (splitHead ev.remoteId '@'))
    exact ⟨m, (evoGreet_msgs_mono _ _ _).subset hm, hs, c,
      by rw [evoGreet_conversations]; exact hc, h1, h2⟩
  · intro content mu mt db cust c hc
    unfold encarteStep
    cases hoc : openConvDesc db cust.id with
    | some c1 => exact hc
    | none =>
      dsimp only
      exact List.mem_append_left _ hc

/-- C9 (witness): both bump conjuncts evaluated on concrete successful
runs. -/
theorem c9_witness :
    (∃ m, m ∈ (zapiWebhook emptyDB c9payload (.ok "Ola!") (.ok (some "W1"))).2.messages ∧
       m.senderType ≠ SenderType.bot ∧
       ∃ c, c ∈ (zapiWebhook emptyDB c9payload (.ok "Ola!") (.ok (some "W1"))).2.conversations ∧
         J.num c.id = m.conversationId ∧ c.updatedAt = m.timestamp) ∧
    (∃ m, m ∈ (evolutionWebhook emptyDB c9payload (.ok "Oi!")).2.messages ∧
       m.senderType = SenderType.customer ∧
       ∃ c, c ∈ (evolutionWebhook emptyDB c9payload (.ok "Oi!")).2.conversations ∧
         J.num c.id = m.conversationId ∧ c.updatedAt = m.timestamp) :=
  ⟨c9_theorem.1 emptyDB c9payload (.ok "Ola!") (.ok (some "W1")) rfl,
   c9_theorem.2.1 emptyDB c9payload (.ok "Oi!") _ rfl rfl⟩

/-- C10: a websocket frame whose `sender_type` is absent or names no
`SenderType` member is still persisted, with the sender defaulted to
`customer`. -/
theorem c10_theorem :
    ∀ (db : DB) (fs : JObj) (gen : Except Unit String), wsBadSender fs →
      ∃ m, m ∈ (wsReceive db (.obj fs) gen).messages ∧
        m.id = db.nextMessageId ∧ m.senderType = SenderType.customer := by
  intro db fs gen hbad
  have hst : wsSenderType (ogetD fs "sender_type" (.str "customer")) =
      SenderType.customer := by
    unfold wsBadSender at hbad
    unfold wsSenderType
    split
    · rfl
    · next heq =>
      exfalso
      unfold ogetD at heq
      cases hl : jlookup fs "sender_type" with
      | none =>
        rw [hl] at heq
        simp at heq
      | some v =>
        rw [hl] at heq hbad
        exact hbad.2.1 (by simpa using heq)
    · next heq =>
      exfalso
      unfold ogetD at heq
      cases hl : jlookup fs "sender_type" with
      | none =>
        rw [hl] at heq
        simp at heq
      | some v =>
        rw [hl] at heq hbad
        exact hbad.2.2 (by simpa using heq)
    · rfl
  unfold wsReceive
  dsimp only
  rw [hst]
  refine ⟨⟨db.nextMessageId, oget fs "conversation_id", oget fs "content", .null, none,
    SenderType.customer, .null, db.now, false⟩, ?_, rfl, rfl⟩
  split
  · split
    · cases gen with
      | error e => exact mem_insertMessage_self _ _
      | ok s => exact List.mem_append_left _ (mem_insertMessage_self _ _)
    · exact mem_insertMessage_self _ _
  · exact mem_insertMessage_self _ _

/-- C10 (witness): a frame with `sender_type: "boss"` is persisted with
the customer role. -/
theorem c10_witness :
    wsBadSender c10fs ∧
    ∃ m, m ∈ (wsReceive emptyDB (.obj c10fs) (.ok "Ola!")).messages ∧
      m.id = emptyDB.nextMessageId ∧ m.senderType = SenderType.customer :=
  ⟨⟨by decide, by decide, by decide⟩,
   c10_theorem emptyDB c10fs (.ok "Ola!") ⟨by decide, by decide, by decide⟩⟩

end DashboardChatbot
